import Mathlib

/-!
Verification of the batch upload + pricing-optimization pipeline of the
nosyt-whop-automation repository, as a shallow embedding in Lean 4.

The embedding translates the Python source (src/whop-api/whop_integration.py,
src/automation/auto_launcher.py, src/generators/ai_product_generator.py) into
total Lean functions.  HTTP calls and the wall clock are external inputs: each
remote call takes its outcome (status code and body, or a raised transport
exception) as an explicit argument.  Python `int` arithmetic on prices is
modelled by `Nat`; `int(x * 0.8)`, `int(x * 1.5)` and `int(x * 1.2)` on a
nonnegative integer `x` are floor operations, written with exact `Nat`
division (`x * 8 / 10` etc.); the float comparison `purchases/views > 0.1`
is written exactly as `10 * purchases > views` (`views > 50` in context, so
the division is defined).
-/

/-! ## Data model: product documents (`generated_products/*.json`) -/

/-- One ebook chapter as stored in a product document:
`{'title': ..., 'content': ...}` (ai_product_generator.py, lines 56-59). -/
structure Chapter where
  title : String
  content : String
deriving DecidableEq, Repr

/-- A product document, the unit of work of the pipeline.  Fields are those
read by `_format_for_whop_api` and the ebook renderers; in the Python source
the document is a dict and reads go through `.get(key, default)`, so a missing
key is the same as the default value (`''` for `subtitle`, `[]` for lists). -/
structure ProductDoc where
  type : String
  title : String
  subtitle : String
  description : String
  suggested_price : Nat
  tags : List String
  chapters : List Chapter
  plr_rights : Bool
  mrr_rights : Bool
  word_count : Nat
  template_type : String
  use_case : String
  planner_type : String
  period : String
  formats : List String
deriving DecidableEq, Repr

/-! ## Marketplace client (`WhopIntegration`) -/

/-- Values stored in the `metadata` map sent to the marketplace. -/
inductive MVal where
  | s (v : String)
  | n (v : Nat)
  | b (v : Bool)
  | ls (v : List String)
deriving DecidableEq, Repr

/-- The `category_mapping` dict of `_get_category`
(whop_integration.py, lines 304-311). -/
def category_mapping : List (String × String) :=
  [("ebook", "education"),
   ("notion_template", "productivity"),
   ("digital_planner", "productivity"),
   ("email_templates", "marketing"),
   ("course", "education"),
   ("membership", "community")]

/-- `_get_category` (whop_integration.py, lines 300-313):
`category_mapping.get(product_type, 'other')`. -/
def get_category (product_type : String) : String :=
  (category_mapping.lookup product_type).getD "other"

/-- The base `metadata` dict built by `_format_for_whop_api`
(whop_integration.py, lines 270-277), in source key order. -/
def base_metadata (d : ProductDoc) : List (String × MVal) :=
  [("auto_generated", .b true),
   ("product_type", .s d.type),
   ("plr_rights", .b d.plr_rights),
   ("mrr_rights", .b d.mrr_rights),
   ("created_by", .s "nosyt_automation"),
   ("word_count", .n d.word_count)]

/-- The type-specific `metadata.update(...)` entries of `_format_for_whop_api`
(whop_integration.py, lines 281-296).  No key here collides with a base key,
so Python `dict.update` just adds these pairs to the map. -/
def type_metadata (d : ProductDoc) : List (String × MVal) :=
  if d.type == "ebook" then
    [("chapters", .n d.chapters.length),
     ("formats", .ls ["PDF", "EPUB", "DOCX"])]
  else if d.type == "notion_template" then
    [("template_type", .s d.template_type),
     ("use_case", .s d.use_case)]
  else if d.type == "digital_planner" then
    [("planner_type", .s d.planner_type),
     ("period", .s d.period),
     ("formats", .ls d.formats)]
  else []

/-- The payload `_format_for_whop_api` sends to the marketplace
(whop_integration.py, lines 261-278). -/
structure WhopProduct where
  title : String
  description : String
  price : Nat
  type : String
  visibility : String
  stock : Int
  category : String
  tags : List String
  metadata : List (String × MVal)
deriving DecidableEq, Repr

/-- `_format_for_whop_api` (whop_integration.py, lines 254-298).
`price` is `suggested_price * 100` (conversion to minor units),
`stock` is `-1` (unlimited), lookup in `metadata` is first-match as in a
Python dict. -/
def format_for_whop_api (d : ProductDoc) : WhopProduct :=
  { title := d.title
    description := d.description
    price := d.suggested_price * 100
    type := "one_time"
    visibility := "public"
    stock := -1
    category := get_category d.type
    tags := d.tags
    metadata := base_metadata d ++ type_metadata d }

/-! ## Pricing optimizer (`_optimize_product_prices`) -/

/-- The outcome of the pricing rule for one listing
(auto_launcher.py, lines 185-197): the price update requested, if any. -/
inductive PriceAction where
  | reduce (new_price : Nat)
  | increase (new_price : Nat)
  | unchanged
deriving DecidableEq, Repr

/-- The per-listing price rule of `_optimize_product_prices`
(auto_launcher.py, lines 185-197), with Python float arithmetic written
exactly: `int(current_price * 0.8)` is `current_price * 8 / 10`,
`int(current_price * 1.2)` is `current_price * 12 / 10` (Nat division is
floor), and `purchases / views > 0.1` is `10 * purchases > views`. -/
def optimize_product_price (views purchases current_price : Nat) : PriceAction :=
  if views > 100 ∧ purchases < 5 then
    .reduce (current_price * 8 / 10)
  else if views > 50 ∧ purchases > 10 then
    if 10 * purchases > views then
      .increase (current_price * 12 / 10)
    else
      .unchanged
  else
    .unchanged

/-- Claim C1: the pricing rule is a deterministic total function of
`(views, purchases, current_price)`, and exactly one of the three outcomes
applies, in the documented order: reduce to `floor(p * 0.8)` when
`views > 100` and `purchases < 5`; otherwise increase to `floor(p * 1.2)` when
`views > 50`, `purchases > 10` and `purchases / views > 0.10`; otherwise the
price is unchanged.  Exactly-one is expressed by the guards of the three
disjuncts being mutually exclusive and jointly exhaustive; determinism and
totality hold because `optimize_product_price` is a total Lean function. -/
theorem pricing_rule_total_and_ordered (views purchases current_price : Nat) :
    (views > 100 ∧ purchases < 5 ∧
      optimize_product_price views purchases current_price =
        .reduce (current_price * 8 / 10)) ∨
    (¬(views > 100 ∧ purchases < 5) ∧
      views > 50 ∧ purchases > 10 ∧ 10 * purchases > views ∧
      optimize_product_price views purchases current_price =
        .increase (current_price * 12 / 10)) ∨
    (¬(views > 100 ∧ purchases < 5) ∧
      ¬(views > 50 ∧ purchases > 10 ∧ 10 * purchases > views) ∧
      optimize_product_price views purchases current_price = .unchanged) := by
  by_cases h1 : views > 100 ∧ purchases < 5
  · exact Or.inl ⟨h1.1, h1.2, by simp [optimize_product_price, h1]⟩
  · by_cases h2 : views > 50 ∧ purchases > 10
    · by_cases h3 : 10 * purchases > views
      · exact Or.inr (Or.inl ⟨h1, h2.1, h2.2, h3,
          by simp [optimize_product_price, h1, h2, h3]⟩)
      · refine Or.inr (Or.inr ⟨h1, ?_, by simp [optimize_product_price, h1, h2, h3]⟩)
        intro hc
        exact h3 hc.2.2
    · refine Or.inr (Or.inr ⟨h1, ?_, by simp [optimize_product_price, h1, h2]⟩)
      intro hc
      exact h2 ⟨hc.1, hc.2.1⟩

/-- Claim C6 counterexample: the claim says any type outside
{ebook, notion_template, digital_planner, email_templates} maps to the
fallback `other`, but the source table also maps `course` to `education`
(and `membership` to `community`), so `_get_category('course')` is not
`other`. -/
theorem get_category_course_not_other :
    get_category "course" = "education" ∧ get_category "course" ≠ "other" := by
  constructor
  · rfl
  · decide

/-- Claim C6 (amended): for every product document the payload sent to the
marketplace has `price = suggested_price * 100` (whole units converted to
minor units exactly once at this boundary), unlimited stock (`-1`), a
metadata map whose `auto_generated` entry is `true`, and a category obtained
from the fixed type-to-category table as a total function: each of the six
table entries (`ebook`, `notion_template`, `digital_planner`,
`email_templates`, `course`, `membership`) maps to exactly one category
string, and any type outside the table maps to the fallback `other` without
raising. -/
theorem format_for_whop_api_payload (d : ProductDoc) :
    (format_for_whop_api d).price = d.suggested_price * 100 ∧
    (format_for_whop_api d).stock = -1 ∧
    ((format_for_whop_api d).metadata.lookup "auto_generated") = some (.b true) ∧
    (format_for_whop_api d).category = get_category d.type ∧
    get_category "ebook" = "education" ∧
    get_category "notion_template" = "productivity" ∧
    get_category "digital_planner" = "productivity" ∧
    get_category "email_templates" = "marketing" ∧
    get_category "course" = "education" ∧
    get_category "membership" = "community" ∧
    (∀ t : String, t ∉ (category_mapping.map Prod.fst) → get_category t = "other") := by
  refine ⟨rfl, rfl, ?_, rfl, rfl, rfl, rfl, rfl, rfl, rfl, ?_⟩
  · simp [format_for_whop_api, base_metadata, List.lookup]
  · intro t ht
    have hl : category_mapping.lookup t = none := by
      rw [List.lookup_eq_none_iff]
      simpa [category_mapping] using ht
    simp [get_category, hl]

/-- Witness for the amended C6 at a concrete document and a concrete unknown
type string. -/
theorem format_for_whop_api_payload_witness :
    (format_for_whop_api
      { type := "ebook", title := "T", subtitle := "", description := "D",
        suggested_price := 15, tags := [], chapters := [], plr_rights := true,
        mrr_rights := true, word_count := 0, template_type := "",
        use_case := "", planner_type := "", period := "",
        formats := [] }).price = 1500 ∧
    get_category "sticker_pack" = "other" := by
  have h := format_for_whop_api_payload
    { type := "ebook", title := "T", subtitle := "", description := "D",
      suggested_price := 15, tags := [], chapters := [], plr_rights := true,
      mrr_rights := true, word_count := 0, template_type := "",
      use_case := "", planner_type := "", period := "",
      formats := [] }
  exact ⟨h.1, h.2.2.2.2.2.2.2.2.2.2 "sticker_pack" (by decide)⟩

/-! ## Marketplace client HTTP operations

Each operation takes the outcome of its one HTTP request as an explicit
argument: either a response (status code plus the parts of the body the code
reads) or a raised transport exception.  The structured action log written by
`_log_action` (whop_integration.py, lines 315-329) is returned alongside the
result as the list of entries appended to the per-day log file; the
`timestamp` field of an entry comes from the wall clock and is left out of
the embedding. -/

/-- One entry appended by `_log_action`: action name, status, and the `data`
payload dict (rendered here as string pairs). -/
structure LogEntry where
  action : String
  status : String
  data : List (String × String)
deriving DecidableEq, Repr

/-- The listing record the marketplace returns on a successful create; the
code reads only its `id` (`result.get('id')`). -/
structure RemoteProduct where
  id : String
deriving DecidableEq, Repr

/-- Outcome of the `requests.post` inside `create_product`: a response with
status code, created id (read from the body on 201) and body text (used in
the error message otherwise), or an exception raised by the call. -/
inductive CreateOutcome where
  | response (status : Nat) (id : String) (text : String)
  | exception (msg : String)
deriving DecidableEq, Repr

/-- `create_product` (whop_integration.py, lines 29-73): returns the created
listing on status 201 and `None` otherwise, logging exactly one action-log
entry on every path; an exception from the request is caught, logged, and
turned into `None`.  Totality of this function is the embedding of "never
raises past this boundary". -/
def create_product (d : ProductDoc) (out : CreateOutcome) :
    Option RemoteProduct × List LogEntry :=
  match out with
  | .response status id text =>
    if status == 201 then
      (some ⟨id⟩,
       [{ action := "create_product", status := "success",
          data := [("product_id", id), ("title", d.title),
                   ("price", toString (format_for_whop_api d).price)] }])
    else
      (none,
       [{ action := "create_product", status := "error",
          data := [("title", d.title),
                   ("error", "Failed to create product. Status: "
                     ++ toString status ++ ", Response: " ++ text)] }])
  | .exception msg =>
    (none,
     [{ action := "create_product", status := "error",
        data := [("error", "Exception creating product: " ++ msg)] }])

/-- Outcome of the `requests.patch` inside `update_product_pricing`. -/
inductive UpdateOutcome where
  | response (status : Nat) (text : String)
  | exception (msg : String)
deriving DecidableEq, Repr

/-- `update_product_pricing` (whop_integration.py, lines 154-180): returns
`True` and logs one `update_price` success entry on status 200; on any other
status, or on an exception, it only prints and returns `False` — nothing is
appended to the action log on the failure paths. -/
def update_product_pricing (product_id : String) (new_price : Nat)
    (out : UpdateOutcome) : Bool × List LogEntry :=
  match out with
  | .response status _ =>
    if status == 200 then
      (true,
       [{ action := "update_price", status := "success",
          data := [("product_id", product_id),
                   ("new_price", toString new_price)] }])
    else
      (false, [])
  | .exception _ => (false, [])

/-- Outcome of the `requests.get` inside `list_products`: a response with a
status code and the `data` array of the body (defaulted to `[]` by
`response.json().get('data', [])`), or an exception raised by the request or
by JSON parsing of the body. -/
inductive ListOutcome where
  | response (status : Nat) (data : List RemoteProduct)
  | exception (msg : String)
deriving DecidableEq, Repr

/-- `list_products` (whop_integration.py, lines 202-220): the `data` array on
status 200, and the empty list on any non-200 status or any exception. -/
def list_products (out : ListOutcome) : List RemoteProduct :=
  match out with
  | .response status data => if status == 200 then data else []
  | .exception _ => []

/-- Claim C4 counterexample: a failed `update_product_pricing` call (here a
500 response) appends no entry at all to the action log, not the one entry
the claim requires. -/
theorem update_pricing_failure_logs_nothing :
    ¬ ((update_product_pricing "prod_1" 800 (.response 500 "server error")).2.length
        = 1) := by
  decide

/-- Claim C4 (amended): every `create_product` call appends exactly one
structured log entry (action, status, payload) whether it succeeds or fails;
`update_product_pricing` appends exactly one entry on success (status 200)
and appends nothing on a non-200 response or an exception. -/
theorem action_log_per_call (d : ProductDoc) (out : CreateOutcome)
    (pid : String) (np : Nat) (s : Nat) (t m : String) :
    (create_product d out).2.length = 1 ∧
    (update_product_pricing pid np (.response s t)).2.length
      = (if s == 200 then 1 else 0) ∧
    (update_product_pricing pid np (.exception m)).2.length = 0 := by
  refine ⟨?_, ?_, rfl⟩
  · cases out with
    | response status id text =>
      by_cases h : status == 201 <;> simp [create_product, h]
    | exception msg => rfl
  · by_cases h : s == 200 <;> simp [update_product_pricing, h]

/-- Claim C5: marketplace client operations never raise past their boundary
(each is a total function of its request outcome): `create_product` returns
`None` and logs an error entry on any non-2xx response and on any exception,
and `list_products` returns the empty list on any non-200 response and on any
exception, never `None` (its error value is `[]`, not a null). -/
theorem client_error_boundary (d : ProductDoc) (status : Nat)
    (id text msg : String) (data : List RemoteProduct)
    (hs : ¬(200 ≤ status ∧ status ≤ 299)) :
    (create_product d (.response status id text)).1 = none ∧
    ((create_product d (.response status id text)).2.map LogEntry.status)
      = ["error"] ∧
    (create_product d (.exception msg)).1 = none ∧
    ((create_product d (.exception msg)).2.map LogEntry.status) = ["error"] ∧
    (status ≠ 200 → list_products (.response status data) = []) ∧
    list_products (.exception msg) = [] := by
  have h201 : (status == 201) = false := by
    simp only [beq_eq_false_iff_ne, ne_eq]
    intro h
    exact hs (by omega)
  refine ⟨?_, ?_, rfl, rfl, ?_, rfl⟩
  · simp [create_product, h201]
  · simp [create_product, h201]
  · intro h200
    simp [list_products, h200]

/-- Witness for C5 at a concrete 500 response and a concrete exception. -/
theorem client_error_boundary_witness :
    (create_product
      { type := "ebook", title := "T", subtitle := "", description := "D",
        suggested_price := 15, tags := [], chapters := [], plr_rights := true,
        mrr_rights := true, word_count := 0, template_type := "",
        use_case := "", planner_type := "", period := "",
        formats := [] } (.response 500 "" "oops")).1 = none ∧
    list_products (.response 500 []) = [] := by
  have h := client_error_boundary
    { type := "ebook", title := "T", subtitle := "", description := "D",
      suggested_price := 15, tags := [], chapters := [], plr_rights := true,
      mrr_rights := true, word_count := 0, template_type := "",
      use_case := "", planner_type := "", period := "",
      formats := [] } 500 "" "oops" "boom" [] (by omega)
  exact ⟨h.1, h.2.2.2.2.1 (by omega)⟩

/-! ## Batch uploader (`BatchUploader.upload_products_from_directory`)

The loop body of `upload_products_from_directory` (whop_integration.py,
lines 358-388) is driven, per file, by three external events: whether
`json.load` raises, whether `create_product` returns a listing, and whether
the subsequent `_create_digital_files` call raises.  `FileOutcome` records
those events for one file; the fold below is the loop with its `try/except`
translated to a case split. -/

/-- What happens when the loop processes one file of the products
directory. -/
inductive FileOutcome where
  /-- `json.load` (or `open`) raises: caught by the `except`,
  `failed += 1`, no entry appended. -/
  | loadError
  /-- `create_product` returns `None`: `failed += 1`, a failed entry is
  appended. -/
  | createFail
  /-- `create_product` returns a listing with this id; `renderRaises` is
  whether the following `_create_digital_files` call raises. -/
  | createOk (id : String) (renderRaises : Bool)
deriving DecidableEq, Repr

/-- One file of the products directory: the document title it holds and the
outcome of processing it. -/
structure UploadItem where
  title : String
  outcome : FileOutcome
deriving DecidableEq, Repr

/-- An entry of the `results['products']` list. -/
structure ProductEntry where
  title : String
  whop_id : Option String
  status : String
deriving DecidableEq, Repr

/-- The aggregate returned by `upload_products_from_directory`. -/
structure UploadResults where
  success : Nat
  failed : Nat
  products : List ProductEntry
deriving DecidableEq, Repr

/-- One iteration of the upload loop (whop_integration.py, lines 358-388).
On `createOk` the success tally and the success entry are recorded before
`_create_digital_files` runs, so a rendering exception lands in the `except`
and additionally increments `failed` without undoing either. -/
def process_file (acc : UploadResults) (it : UploadItem) : UploadResults :=
  match it.outcome with
  | .loadError => { acc with failed := acc.failed + 1 }
  | .createFail =>
    { acc with failed := acc.failed + 1,
               products := acc.products
                 ++ [{ title := it.title, whop_id := none, status := "failed" }] }
  | .createOk id renderRaises =>
    let acc' : UploadResults :=
      { success := acc.success + 1
        failed := acc.failed
        products := acc.products
          ++ [{ title := it.title, whop_id := some id, status := "success" }] }
    if renderRaises then { acc' with failed := acc'.failed + 1 } else acc'

/-- `upload_products_from_directory` (whop_integration.py, lines 340-391):
`none` is a missing directory (early return of zero counts); otherwise the
list of `*.json` files is processed in order by the loop. -/
def upload_products_from_directory (dir : Option (List UploadItem)) :
    UploadResults :=
  match dir with
  | none => { success := 0, failed := 0, products := [] }
  | some files => files.foldl process_file { success := 0, failed := 0, products := [] }

/-- Number of files whose `create_product` call succeeds. -/
def succCount : List UploadItem → Nat
  | [] => 0
  | it :: rest =>
    (match it.outcome with
      | .createOk _ _ => 1
      | _ => 0) + succCount rest

/-- Number of `failed` increments the loop performs: unreadable files, failed
creations, and successfully created files whose rendering raises. -/
def failCount : List UploadItem → Nat
  | [] => 0
  | it :: rest =>
    (match it.outcome with
      | .loadError => 1
      | .createFail => 1
      | .createOk _ r => if r then 1 else 0) + failCount rest

/-- The per-item entries the loop appends, in file order. -/
def entriesOf : List UploadItem → List ProductEntry
  | [] => []
  | it :: rest =>
    (match it.outcome with
      | .loadError => []
      | .createFail => [{ title := it.title, whop_id := none, status := "failed" }]
      | .createOk id _ =>
        [{ title := it.title, whop_id := some id, status := "success" }])
      ++ entriesOf rest

/-- Characterization of the upload fold from an arbitrary accumulator. -/
theorem foldl_process_file (files : List UploadItem) (acc : UploadResults) :
    files.foldl process_file acc =
      { success := acc.success + succCount files,
        failed := acc.failed + failCount files,
        products := acc.products ++ entriesOf files } := by
  induction files generalizing acc with
  | nil => simp [succCount, failCount, entriesOf]
  | cons it rest ih =>
    cases h : it.outcome with
    | loadError =>
      simp only [List.foldl_cons, process_file, h, ih]
      simp [succCount, failCount, entriesOf, h]
      omega
    | createFail =>
      simp only [List.foldl_cons, process_file, h, ih]
      simp only [succCount, failCount, entriesOf, h]
      simp
      omega
    | createOk id r =>
      cases r with
      | false =>
        simp only [List.foldl_cons, process_file, h, if_neg (Bool.false_ne_true), ih]
        simp only [succCount, failCount, entriesOf, h]
        simp
        omega
      | true =>
        simp only [List.foldl_cons, process_file, h, if_pos rfl, ih]
        simp only [succCount, failCount, entriesOf, h]
        simp
        omega

/-- `succCount` distributes over list append. -/
theorem succCount_append (a b : List UploadItem) :
    succCount (a ++ b) = succCount a + succCount b := by
  induction a with
  | nil => simp [succCount]
  | cons it rest ih => simp [succCount, ih]; omega

/-- `failCount` distributes over list append. -/
theorem failCount_append (a b : List UploadItem) :
    failCount (a ++ b) = failCount a + failCount b := by
  induction a with
  | nil => simp [failCount]
  | cons it rest ih => simp [failCount, ih]; omega

/-- `entriesOf` distributes over list append. -/
theorem entriesOf_append (a b : List UploadItem) :
    entriesOf (a ++ b) = entriesOf a ++ entriesOf b := by
  induction a with
  | nil => simp [entriesOf]
  | cons it rest ih => simp [entriesOf, ih]

/-- A file outcome in which the only possible failure is the
`create_product` call returning `None`: the file is readable, and if the
listing is created the deliverable rendering does not raise. -/
def createFailOrCleanOk (o : FileOutcome) : Bool :=
  match o with
  | .loadError => false
  | .createFail => true
  | .createOk _ r => !r

/-- Under `createFailOrCleanOk` outcomes, the tallies partition the batch and
every file gets an entry. -/
theorem counts_partition (files : List UploadItem)
    (h : ∀ it ∈ files, createFailOrCleanOk it.outcome = true) :
    succCount files + failCount files = files.length ∧
    (entriesOf files).length = files.length := by
  induction files with
  | nil => simp [succCount, failCount, entriesOf]
  | cons it rest ih =>
    have hit := h it (List.mem_cons_self it rest)
    have hrest := ih fun x hx => h x (List.mem_cons_of_mem it hx)
    cases ho : it.outcome with
    | loadError => rw [ho] at hit; simp [createFailOrCleanOk] at hit
    | createFail =>
      simp [succCount, failCount, entriesOf, ho]
      omega
    | createOk id r =>
      rw [ho] at hit
      simp [createFailOrCleanOk] at hit
      simp [succCount, failCount, entriesOf, ho, hit]
      omega

/-- Claim C2 counterexample: a one-document directory whose single document
succeeds listing creation (so K = 1 and F = 0) but whose deliverable
rendering then raises reports `failed = 1`, not the `failed = F = 0` the
claim asserts for every such directory. -/
theorem batch_upload_counts_counterexample :
    (upload_products_from_directory
        (some [⟨"a", .createOk "p1" true⟩])).success = 1 ∧
    ¬ ((upload_products_from_directory
        (some [⟨"a", .createOk "p1" true⟩])).failed = 0) := by
  decide

/-- Claim C2 (amended): over a directory of K readable product documents of
which F fail listing creation, where every successfully created document also
renders its deliverables without raising, `upload_products_from_directory`
returns `success = K - F`, `failed = F`, and a per-item `products` list with
exactly K entries, one per document.  (Without that restriction the counts
break: a successfully created document whose rendering raises is counted in
`failed` as well — see the C10 theorem — and an unreadable document gets no
per-item entry.) -/
theorem batch_upload_counts (files : List UploadItem)
    (h : ∀ it ∈ files, createFailOrCleanOk it.outcome = true) :
    (upload_products_from_directory (some files)).success
        = files.length - failCount files ∧
    (upload_products_from_directory (some files)).failed = failCount files ∧
    (upload_products_from_directory (some files)).products.length
        = files.length := by
  have hpart := counts_partition files h
  simp only [upload_products_from_directory, foldl_process_file]
  refine ⟨?_, ?_, ?_⟩
  · simp; omega
  · simp
  · simpa using hpart.2

/-- Witness for C2: a three-document store in which exactly one document
fails listing creation yields `success = 2`, `failed = 1`, three entries. -/
theorem batch_upload_counts_witness :
    (∀ it ∈ ([⟨"a", .createOk "p1" false⟩, ⟨"b", .createFail⟩,
              ⟨"c", .createOk "p2" false⟩] : List UploadItem),
        createFailOrCleanOk it.outcome = true) ∧
    ((upload_products_from_directory
        (some [⟨"a", .createOk "p1" false⟩, ⟨"b", .createFail⟩,
               ⟨"c", .createOk "p2" false⟩])).success
      = ([⟨"a", .createOk "p1" false⟩, ⟨"b", .createFail⟩,
          ⟨"c", .createOk "p2" false⟩] : List UploadItem).length
        - failCount [⟨"a", .createOk "p1" false⟩, ⟨"b", .createFail⟩,
                     ⟨"c", .createOk "p2" false⟩] ∧
     (upload_products_from_directory
        (some [⟨"a", .createOk "p1" false⟩, ⟨"b", .createFail⟩,
               ⟨"c", .createOk "p2" false⟩])).failed
      = failCount [⟨"a", .createOk "p1" false⟩, ⟨"b", .createFail⟩,
                   ⟨"c", .createOk "p2" false⟩] ∧
     (upload_products_from_directory
        (some [⟨"a", .createOk "p1" false⟩, ⟨"b", .createFail⟩,
               ⟨"c", .createOk "p2" false⟩])).products.length
      = ([⟨"a", .createOk "p1" false⟩, ⟨"b", .createFail⟩,
          ⟨"c", .createOk "p2" false⟩] : List UploadItem).length) :=
  ⟨by decide, batch_upload_counts _ (by decide)⟩

/-- Claim C8: a missing or empty products directory yields zero counts and no
error, and an unreadable (malformed) document anywhere in the batch is
counted as failed, gets no per-item entry, and does not disturb the
processing of the documents before or after it. -/
theorem upload_edge_cases :
    upload_products_from_directory none
      = { success := 0, failed := 0, products := [] } ∧
    upload_products_from_directory (some [])
      = { success := 0, failed := 0, products := [] } ∧
    ∀ (a b : List UploadItem) (t : String),
      upload_products_from_directory (some (a ++ ⟨t, .loadError⟩ :: b)) =
        { success := succCount a + succCount b,
          failed := failCount a + 1 + failCount b,
          products := entriesOf a ++ entriesOf b } := by
  refine ⟨rfl, rfl, ?_⟩
  intro a b t
  simp only [upload_products_from_directory, foldl_process_file]
  have h1 : succCount (a ++ ⟨t, .loadError⟩ :: b) = succCount a + succCount b := by
    rw [succCount_append]
    simp [succCount]
  have h2 : failCount (a ++ ⟨t, .loadError⟩ :: b)
      = failCount a + 1 + failCount b := by
    rw [failCount_append]
    simp [failCount]
    omega
  have h3 : entriesOf (a ++ ⟨t, .loadError⟩ :: b) = entriesOf a ++ entriesOf b := by
    rw [entriesOf_append]
    simp [entriesOf]
  simp [h1, h2, h3]

/-- Claim C10: a document whose listing creation succeeds but whose
deliverable rendering then raises is tallied both in `success` (its success
entry already appended to the per-item list) and in `failed`; in particular a
one-document batch of this shape reports `success + failed = 2` for a single
processed document, so the tallies are not restored when rendering fails
after a successful create. -/
theorem render_failure_double_count (t id : String) (a b : List UploadItem) :
    (upload_products_from_directory
        (some (a ++ ⟨t, .createOk id true⟩ :: b))).success
      = succCount a + 1 + succCount b ∧
    (upload_products_from_directory
        (some (a ++ ⟨t, .createOk id true⟩ :: b))).failed
      = failCount a + 1 + failCount b ∧
    (upload_products_from_directory
        (some (a ++ ⟨t, .createOk id true⟩ :: b))).products
      = entriesOf a
        ++ { title := t, whop_id := some id, status := "success" } :: entriesOf b ∧
    (upload_products_from_directory (some [⟨t, .createOk id true⟩])).success
        + (upload_products_from_directory (some [⟨t, .createOk id true⟩])).failed
      > ([⟨t, .createOk id true⟩] : List UploadItem).length := by
  simp only [upload_products_from_directory, foldl_process_file]
  refine ⟨?_, ?_, ?_, ?_⟩
  · rw [succCount_append]
    simp [succCount]
    omega
  · rw [failCount_append]
    simp [failCount]
    omega
  · rw [entriesOf_append]
    simp [entriesOf]
  · simp [succCount, failCount]

/-! ## Scheduler/Orchestrator (`AutoLauncher.run_daily_automation`)

`run_daily_automation` (auto_launcher.py, lines 100-125) wraps the four
stages — generate, upload, optimize-price, report — in a single `try` block
with one `except` at the cycle level; there are no per-stage handlers inside
it.  The embedding abstracts each stage to whether it raises when attempted,
and the configuration to its three stage-enabling flags; the trace records
which stages were started and whether the cycle handler caught an
exception. -/

/-- The configuration flags consulted by the daily cycle
(`auto_generate`, `auto_upload`, `price_optimization`). -/
structure CycleConfig where
  auto_generate : Bool
  auto_upload : Bool
  price_optimization : Bool
deriving DecidableEq, Repr

/-- Whether each stage raises an exception when attempted. -/
structure StageBehavior where
  generateRaises : Bool
  uploadRaises : Bool
  optimizeRaises : Bool
  reportRaises : Bool
deriving DecidableEq, Repr

/-- What one run of the daily cycle did: which stages it started, whether the
cycle-level `except` caught an exception (and logged the cycle failure), and
whether the cycle reached its normal completion log line. -/
structure CycleTrace where
  ranGenerate : Bool
  ranUpload : Bool
  ranOptimize : Bool
  ranReport : Bool
  caughtError : Bool
  completedNormally : Bool
deriving DecidableEq, Repr

/-- `run_daily_automation` (auto_launcher.py, lines 100-125): the stages run
in order inside one `try`; a disabled stage is skipped; the first raising
stage jumps to the single cycle-level `except`, so no later stage of that
cycle is started.  The function is total: the exception never propagates to
the caller. -/
def run_daily_automation (cfg : CycleConfig) (beh : StageBehavior) : CycleTrace :=
  if cfg.auto_generate && beh.generateRaises then
    { ranGenerate := true, ranUpload := false, ranOptimize := false,
      ranReport := false, caughtError := true, completedNormally := false }
  else if cfg.auto_upload && beh.uploadRaises then
    { ranGenerate := cfg.auto_generate, ranUpload := true, ranOptimize := false,
      ranReport := false, caughtError := true, completedNormally := false }
  else if cfg.price_optimization && beh.optimizeRaises then
    { ranGenerate := cfg.auto_generate, ranUpload := cfg.auto_upload,
      ranOptimize := true, ranReport := false, caughtError := true,
      completedNormally := false }
  else if beh.reportRaises then
    { ranGenerate := cfg.auto_generate, ranUpload := cfg.auto_upload,
      ranOptimize := cfg.price_optimization, ranReport := true,
      caughtError := true, completedNormally := false }
  else
    { ranGenerate := cfg.auto_generate, ranUpload := cfg.auto_upload,
      ranOptimize := cfg.price_optimization, ranReport := true,
      caughtError := false, completedNormally := true }

/-- Claim C3 counterexample: with every stage enabled, a run in which the
generation stage raises does not execute the upload, price-optimization or
report stages — the single cycle-level handler catches the exception and the
rest of the cycle is skipped, contradicting the claim that every subsequent
enabled stage still runs. -/
theorem generation_failure_skips_rest :
    ¬ ((run_daily_automation
          { auto_generate := true, auto_upload := true, price_optimization := true }
          { generateRaises := true, uploadRaises := false,
            optimizeRaises := false, reportRaises := false }).ranUpload = true ∧
       (run_daily_automation
          { auto_generate := true, auto_upload := true, price_optimization := true }
          { generateRaises := true, uploadRaises := false,
            optimizeRaises := false, reportRaises := false }).ranReport = true) := by
  decide

/-- Claim C3 (amended): an exception raised by a stage of the daily cycle is
caught by the single cycle-level handler and logged, and never propagates out
of `run_daily_automation` (the run either completes normally or ends in the
handler); but the remaining stages of that cycle are skipped, not run — in
particular, when the generation stage raises, neither upload nor
price-optimization nor report is executed in that cycle.  When no stage
raises, every enabled stage runs and the report stage always runs. -/
theorem daily_cycle_exception_handling (cfg : CycleConfig) (beh : StageBehavior) :
    ((run_daily_automation cfg beh).caughtError = true ∨
      (run_daily_automation cfg beh).completedNormally = true) ∧
    (cfg.auto_generate = true → beh.generateRaises = true →
      (run_daily_automation cfg beh).caughtError = true ∧
      (run_daily_automation cfg beh).ranUpload = false ∧
      (run_daily_automation cfg beh).ranOptimize = false ∧
      (run_daily_automation cfg beh).ranReport = false) ∧
    (beh.generateRaises = false → beh.uploadRaises = false →
      beh.optimizeRaises = false → beh.reportRaises = false →
      (run_daily_automation cfg beh).ranGenerate = cfg.auto_generate ∧
      (run_daily_automation cfg beh).ranUpload = cfg.auto_upload ∧
      (run_daily_automation cfg beh).ranOptimize = cfg.price_optimization ∧
      (run_daily_automation cfg beh).ranReport = true ∧
      (run_daily_automation cfg beh).completedNormally = true) := by
  refine ⟨?_, ?_, ?_⟩
  · unfold run_daily_automation
    split
    · simp
    · split
      · simp
      · split
        · simp
        · split <;> simp
  · intro hg hr
    simp [run_daily_automation, hg, hr]
  · intro h1 h2 h3 h4
    simp [run_daily_automation, h1, h2, h3, h4]

/-- Witness for the amended C3, discharging both implications at concrete
configurations. -/
theorem daily_cycle_exception_handling_witness :
    ((run_daily_automation
        { auto_generate := true, auto_upload := true, price_optimization := true }
        { generateRaises := true, uploadRaises := false,
          optimizeRaises := false, reportRaises := false }).ranReport = false) ∧
    ((run_daily_automation
        { auto_generate := true, auto_upload := false, price_optimization := true }
        { generateRaises := false, uploadRaises := false,
          optimizeRaises := false, reportRaises := false }).ranReport = true) :=
  ⟨((daily_cycle_exception_handling
      { auto_generate := true, auto_upload := true, price_optimization := true }
      { generateRaises := true, uploadRaises := false,
        optimizeRaises := false, reportRaises := false }).2.1
      rfl rfl).2.2.2,
   ((daily_cycle_exception_handling
      { auto_generate := true, auto_upload := false, price_optimization := true }
      { generateRaises := false, uploadRaises := false,
        optimizeRaises := false, reportRaises := false }).2.2
      rfl rfl rfl rfl).2.2.2.1⟩

/-! ## Ebook deliverable renderers (`BatchUploader._generate_ebook_*`)

The three renderers build one string by concatenation; Python
`'=' * n` is `srepeat "=" n`, and each `for i, chapter in
enumerate(chapters)` loop is a recursive helper carrying the counter `i`.
In the HTML template the literal braces of the CSS are written with
character escapes. -/

/-- Python `s * n` string repetition. -/
def srepeat (s : String) (n : Nat) : String :=
  String.join (List.replicate n s)

/-- Table-of-contents lines of `_generate_ebook_text`
(whop_integration.py, lines 502-503). -/
def text_toc : Nat → List Chapter → String
  | _, [] => ""
  | i, c :: cs =>
    "Chapter " ++ toString (i + 1) ++ ": " ++ c.title ++ "\n" ++ text_toc (i + 1) cs

/-- Chapter blocks of `_generate_ebook_text`
(whop_integration.py, lines 507-510). -/
def text_body : Nat → List Chapter → String
  | _, [] => ""
  | i, c :: cs =>
    "Chapter " ++ toString (i + 1) ++ ": " ++ c.title ++ "\n"
    ++ srepeat "-" (c.title.length + 12) ++ "\n\n"
    ++ c.content ++ "\n\n"
    ++ text_body (i + 1) cs

/-- `_generate_ebook_text` (whop_integration.py, lines 488-517). -/
def generate_ebook_text (d : ProductDoc) : String :=
  d.title ++ "\n" ++ srepeat "=" d.title.length ++ "\n\n"
  ++ (if d.subtitle == "" then "" else d.subtitle ++ "\n\n")
  ++ "TABLE OF CONTENTS\n-----------------\n"
  ++ text_toc 0 d.chapters
  ++ "\n\n"
  ++ text_body 0 d.chapters
  ++ "\n" ++ srepeat "=" 50 ++ "\n"
  ++ "This ebook comes with Private Label Rights (PLR).\n"
  ++ "You may edit, rebrand, and resell this content.\n"
  ++ "Generated by Nosyt Automation System\n"

/-- Table-of-contents lines of `_generate_ebook_markdown`
(whop_integration.py, lines 533-534). -/
def md_toc : Nat → List Chapter → String
  | _, [] => ""
  | i, c :: cs =>
    toString (i + 1) ++ ". " ++ c.title ++ "\n" ++ md_toc (i + 1) cs

/-- Chapter blocks of `_generate_ebook_markdown`
(whop_integration.py, lines 538-540). -/
def md_body : Nat → List Chapter → String
  | _, [] => ""
  | i, c :: cs =>
    "## Chapter " ++ toString (i + 1) ++ ": " ++ c.title ++ "\n\n"
    ++ c.content ++ "\n\n"
    ++ md_body (i + 1) cs

/-- `_generate_ebook_markdown` (whop_integration.py, lines 519-547). -/
def generate_ebook_markdown (d : ProductDoc) : String :=
  "# " ++ d.title ++ "\n\n"
  ++ (if d.subtitle == "" then "" else "*" ++ d.subtitle ++ "*\n\n")
  ++ "## Table of Contents\n\n"
  ++ md_toc 0 d.chapters
  ++ "\n---\n\n"
  ++ md_body 0 d.chapters
  ++ "---\n\n"
  ++ "**PLR License**: This ebook comes with Private Label Rights (PLR). "
  ++ "You may edit, rebrand, and resell this content.\n\n"
  ++ "*Generated by Nosyt Automation System*\n"

/-- Table-of-contents items of `_generate_ebook_html`
(whop_integration.py, line 472). -/
def html_toc : Nat → List Chapter → String
  | _, [] => ""
  | i, c :: cs =>
    "<li>Chapter " ++ toString (i + 1) ++ ": " ++ c.title ++ "</li>"
    ++ html_toc (i + 1) cs

/-- Chapter divs of `_generate_ebook_html` (whop_integration.py, line 476). -/
def html_body : Nat → List Chapter → String
  | _, [] => ""
  | i, c :: cs =>
    "<div class=\"chapter\"><h2>Chapter " ++ toString (i + 1) ++ ": " ++ c.title
    ++ "</h2><div>" ++ c.content ++ "</div></div>"
    ++ html_body (i + 1) cs

/-- The template text of `_generate_ebook_html` before the subtitle slot
(whop_integration.py, lines 446-467); the doubled braces of the CSS render
as literal braces, written here as character escapes. -/
def html_head (title : String) : String :=
  "\n<!DOCTYPE html>\n<html lang=\"en\">\n<head>\n    <meta charset=\"UTF-8\">\n    <meta name=\"viewport\" content=\"width=device-width, initial-scale=1.0\">\n    <title>"
  ++ title
  ++ "</title>\n    <style>\n        body \x7b font-family: Georgia, serif; line-height: 1.6; max-width: 800px; margin: 0 auto; padding: 20px; \x7d\n        h1 \x7b color: #333; border-bottom: 3px solid #007acc; padding-bottom: 10px; \x7d\n        h2 \x7b color: #555; margin-top: 30px; \x7d\n        .subtitle \x7b font-style: italic; color: #666; margin-bottom: 30px; \x7d\n        .chapter \x7b margin-bottom: 40px; page-break-after: always; \x7d\n        .toc \x7b background: #f9f9f9; padding: 20px; margin-bottom: 30px; \x7d\n        .toc ul \x7b list-style-type: none; \x7d\n        .toc li \x7b margin: 10px 0; \x7d\n        .footer \x7b text-align: center; margin-top: 50px; font-size: 0.9em; color: #666; \x7d\n    </style>\n</head>\n<body>\n    <h1>"
  ++ title
  ++ "</h1>\n    "

/-- `_generate_ebook_html` (whop_integration.py, lines 438-486). -/
def generate_ebook_html (d : ProductDoc) : String :=
  html_head d.title
  ++ (if d.subtitle == "" then ""
      else "<p class=\"subtitle\">" ++ d.subtitle ++ "</p>")
  ++ "\n    \n    <div class=\"toc\">\n        <h2>Table of Contents</h2>\n        <ul>\n        "
  ++ html_toc 0 d.chapters
  ++ "\n        </ul>\n    </div>\n    \n    "
  ++ html_body 0 d.chapters
  ++ "\n    \n    <div class=\"footer\">\n        <p>This ebook comes with Private Label Rights (PLR). You may edit, rebrand, and resell this content.</p>\n        <p>Generated by Nosyt Automation System</p>\n    </div>\n</body>\n</html>\n        "

/-! ## Structural completeness of the rendered ebooks

`InOrder ps s` states that the fragments `ps` occur in `s` as
pairwise-disjoint substrings, in the given order: `s` splits as
`a₁ ++ p₁ ++ (a₂ ++ p₂ ++ (… ++ aₙ ++ pₙ ++ b))`.  Applied to the title, the
subtitle when present, the chapter titles of the table of contents, the
interleaved chapter headings and chapter contents, and the license notice,
this is the rendering contract: every chapter is emitted once, in original
order, with its content verbatim, and the license notice trails the
chapters. -/

/-- The fragments `ps` occur in `s` in order, pairwise disjoint. -/
def InOrder : List String → String → Prop
  | [], _ => True
  | p :: ps, s => ∃ a b : String, s = a ++ p ++ b ∧ InOrder ps b

/-- Fragments survive prepending text to the string. -/
theorem inOrder_prepend (ps : List String) (pre s : String) (h : InOrder ps s) :
    InOrder ps (pre ++ s) := by
  cases ps with
  | nil => trivial
  | cons p ps =>
    obtain ⟨a, b, hs, hrest⟩ := h
    exact ⟨pre ++ a, b, by rw [hs]; simp [String.append_assoc], hrest⟩

/-- In-order occurrence composes over concatenation. -/
theorem inOrder_append (xs ys : List String) (s t : String)
    (hx : InOrder xs s) (hy : InOrder ys t) : InOrder (xs ++ ys) (s ++ t) := by
  induction xs generalizing s with
  | nil => simpa using inOrder_prepend ys s t hy
  | cons x xs ih =>
    obtain ⟨a, b, hs, hrest⟩ := hx
    exact ⟨a, b ++ t, by rw [hs]; simp [String.append_assoc], ih b hrest⟩

/-- The heading/content fragments contributed by the chapter loop starting at
counter `i`: for each chapter, its `Chapter {i+1}: {title}` heading followed
by its content. -/
def chapterFragments : Nat → List Chapter → List String
  | _, [] => []
  | i, c :: cs =>
    ("Chapter " ++ toString (i + 1) ++ ": " ++ c.title)
      :: c.content :: chapterFragments (i + 1) cs

/-- The text table of contents lists the chapter titles in order. -/
theorem text_toc_titles (cs : List Chapter) :
    ∀ i, InOrder (cs.map Chapter.title) (text_toc i cs) := by
  induction cs with
  | nil => intro i; simp only [List.map_nil]; trivial
  | cons c cs ih =>
    intro i
    simp only [List.map_cons]
    refine ⟨"Chapter " ++ toString (i + 1) ++ ": ",
            "\n" ++ text_toc (i + 1) cs, ?_, ?_⟩
    · simp [text_toc, String.append_assoc]
    · exact inOrder_prepend _ "\n" _ (ih (i + 1))

/-- The text chapter blocks carry the headings and contents in order. -/
theorem text_body_fragments (cs : List Chapter) :
    ∀ i, InOrder (chapterFragments i cs) (text_body i cs) := by
  induction cs with
  | nil => intro i; simp only [chapterFragments]; trivial
  | cons c cs ih =>
    intro i
    simp only [chapterFragments]
    refine ⟨"", "\n" ++ srepeat "-" (c.title.length + 12) ++ "\n\n"
              ++ c.content ++ "\n\n" ++ text_body (i + 1) cs, ?_, ?_⟩
    · simp [text_body, String.append_assoc]
    · refine ⟨"\n" ++ srepeat "-" (c.title.length + 12) ++ "\n\n",
              "\n\n" ++ text_body (i + 1) cs, ?_, ?_⟩
      · simp [String.append_assoc]
      · exact inOrder_prepend _ "\n\n" _ (ih (i + 1))

/-- The markdown table of contents lists the chapter titles in order. -/
theorem md_toc_titles (cs : List Chapter) :
    ∀ i, InOrder (cs.map Chapter.title) (md_toc i cs) := by
  induction cs with
  | nil => intro i; simp only [List.map_nil]; trivial
  | cons c cs ih =>
    intro i
    simp only [List.map_cons]
    refine ⟨toString (i + 1) ++ ". ", "\n" ++ md_toc (i + 1) cs, ?_, ?_⟩
    · simp [md_toc, String.append_assoc]
    · exact inOrder_prepend _ "\n" _ (ih (i + 1))

/-- The markdown chapter blocks carry the headings and contents in order. -/
theorem md_body_fragments (cs : List Chapter) :
    ∀ i, InOrder (chapterFragments i cs) (md_body i cs) := by
  induction cs with
  | nil => intro i; simp only [chapterFragments]; trivial
  | cons c cs ih =>
    intro i
    simp only [chapterFragments]
    refine ⟨"## ", "\n\n" ++ c.content ++ "\n\n" ++ md_body (i + 1) cs, ?_, ?_⟩
    · simp only [md_body, String.append_assoc]
      rw [show ("## Chapter " : String) = "## " ++ "Chapter " from rfl,
        String.append_assoc]
    · refine ⟨"\n\n", "\n\n" ++ md_body (i + 1) cs, ?_, ?_⟩
      · simp [String.append_assoc]
      · exact inOrder_prepend _ "\n\n" _ (ih (i + 1))

/-- The HTML table of contents lists the chapter titles in order. -/
theorem html_toc_titles (cs : List Chapter) :
    ∀ i, InOrder (cs.map Chapter.title) (html_toc i cs) := by
  induction cs with
  | nil => intro i; simp only [List.map_nil]; trivial
  | cons c cs ih =>
    intro i
    simp only [List.map_cons]
    refine ⟨"<li>Chapter " ++ toString (i + 1) ++ ": ",
            "</li>" ++ html_toc (i + 1) cs, ?_, ?_⟩
    · simp [html_toc, String.append_assoc]
    · exact inOrder_prepend _ "</li>" _ (ih (i + 1))

/-- The HTML chapter divs carry the headings and contents in order. -/
theorem html_body_fragments (cs : List Chapter) :
    ∀ i, InOrder (chapterFragments i cs) (html_body i cs) := by
  induction cs with
  | nil => intro i; simp only [chapterFragments]; trivial
  | cons c cs ih =>
    intro i
    simp only [chapterFragments]
    refine ⟨"<div class=\"chapter\"><h2>",
            "</h2><div>" ++ c.content ++ "</div></div>" ++ html_body (i + 1) cs,
            ?_, ?_⟩
    · simp only [html_body, String.append_assoc]
      rw [show ("<div class=\"chapter\"><h2>Chapter " : String)
            = "<div class=\"chapter\"><h2>" ++ "Chapter " from rfl,
        String.append_assoc]
    · refine ⟨"</h2><div>", "</div></div>" ++ html_body (i + 1) cs, ?_, ?_⟩
      · simp [String.append_assoc]
      · exact inOrder_prepend _ "</div></div>" _ (ih (i + 1))

/-- The fragments the rendering contract requires, in order: title, subtitle
when present, the chapter titles of the table of contents, one heading and
the verbatim content per chapter, and the license notice. -/
def ebook_fragments (d : ProductDoc) : List String :=
  d.title :: ((if d.subtitle == "" then [] else [d.subtitle])
    ++ d.chapters.map Chapter.title
    ++ chapterFragments 0 d.chapters
    ++ ["This ebook comes with Private Label Rights (PLR)"])

/-- The plain-text rendering contains all contract fragments in order. -/
theorem generate_ebook_text_contains (d : ProductDoc) :
    InOrder (ebook_fragments d) (generate_ebook_text d) := by
  have h1 : InOrder [d.title]
      (d.title ++ "\n" ++ srepeat "=" d.title.length ++ "\n\n") :=
    ⟨"", "\n" ++ srepeat "=" d.title.length ++ "\n\n",
     by simp [String.append_assoc], trivial⟩
  have h2 : InOrder (if d.subtitle == "" then [] else [d.subtitle])
      (if d.subtitle == "" then "" else d.subtitle ++ "\n\n") := by
    cases hsub : d.subtitle == "" with
    | false =>
      simp only [hsub, Bool.false_eq_true, if_false]
      exact ⟨"", "\n\n", by simp [String.append_assoc], trivial⟩
    | true =>
      simp only [hsub, if_true]
      trivial
  have h3 : InOrder (d.chapters.map Chapter.title)
      ("TABLE OF CONTENTS\n-----------------\n" ++ text_toc 0 d.chapters) :=
    inOrder_prepend _ _ _ (text_toc_titles d.chapters 0)
  have h4 : InOrder (chapterFragments 0 d.chapters)
      ("\n\n" ++ text_body 0 d.chapters) :=
    inOrder_prepend _ _ _ (text_body_fragments d.chapters 0)
  have h5 : InOrder ["This ebook comes with Private Label Rights (PLR)"]
      ("\n" ++ srepeat "=" 50 ++ "\n"
        ++ "This ebook comes with Private Label Rights (PLR).\n"
        ++ "You may edit, rebrand, and resell this content.\n"
        ++ "Generated by Nosyt Automation System\n") :=
    ⟨"\n" ++ srepeat "=" 50 ++ "\n",
     ".\n" ++ "You may edit, rebrand, and resell this content.\n"
       ++ "Generated by Nosyt Automation System\n",
     by simp [String.append_assoc,
       show ("This ebook comes with Private Label Rights (PLR).\n" : String)
         = "This ebook comes with Private Label Rights (PLR)" ++ ".\n" from rfl],
     trivial⟩
  have H := inOrder_append [d.title] _ _ _ h1
    (inOrder_append _ _ _ _ h2
      (inOrder_append _ _ _ _ h3
        (inOrder_append _ _ _ _ h4 h5)))
  have el : ebook_fragments d
      = [d.title] ++ ((if d.subtitle == "" then [] else [d.subtitle])
        ++ (d.chapters.map Chapter.title
          ++ (chapterFragments 0 d.chapters
            ++ ["This ebook comes with Private Label Rights (PLR)"]))) := by
    simp [ebook_fragments]
  have es : generate_ebook_text d
      = (d.title ++ "\n" ++ srepeat "=" d.title.length ++ "\n\n")
        ++ ((if d.subtitle == "" then "" else d.subtitle ++ "\n\n")
          ++ (("TABLE OF CONTENTS\n-----------------\n" ++ text_toc 0 d.chapters)
            ++ (("\n\n" ++ text_body 0 d.chapters)
              ++ ("\n" ++ srepeat "=" 50 ++ "\n"
                ++ "This ebook comes with Private Label Rights (PLR).\n"
                ++ "You may edit, rebrand, and resell this content.\n"
                ++ "Generated by Nosyt Automation System\n")))) := by
    simp [generate_ebook_text, String.append_assoc]
  rw [el, es]
  exact H

/-- The markdown rendering contains all contract fragments in order. -/
theorem generate_ebook_markdown_contains (d : ProductDoc) :
    InOrder (ebook_fragments d) (generate_ebook_markdown d) := by
  have h1 : InOrder [d.title] ("# " ++ d.title ++ "\n\n") :=
    ⟨"# ", "\n\n", rfl, trivial⟩
  have h2 : InOrder (if d.subtitle == "" then [] else [d.subtitle])
      (if d.subtitle == "" then "" else "*" ++ d.subtitle ++ "*\n\n") := by
    cases hsub : d.subtitle == "" with
    | false =>
      simp only [hsub, Bool.false_eq_true, if_false]
      exact ⟨"*", "*\n\n", by simp [String.append_assoc], trivial⟩
    | true =>
      simp only [hsub, if_true]
      trivial
  have h3 : InOrder (d.chapters.map Chapter.title)
      ("## Table of Contents\n\n" ++ md_toc 0 d.chapters) :=
    inOrder_prepend _ _ _ (md_toc_titles d.chapters 0)
  have h4 : InOrder (chapterFragments 0 d.chapters)
      ("\n---\n\n" ++ md_body 0 d.chapters) :=
    inOrder_prepend _ _ _ (md_body_fragments d.chapters 0)
  have h5 : InOrder ["This ebook comes with Private Label Rights (PLR)"]
      ("---\n\n"
        ++ "**PLR License**: This ebook comes with Private Label Rights (PLR). "
        ++ "You may edit, rebrand, and resell this content.\n\n"
        ++ "*Generated by Nosyt Automation System*\n") :=
    ⟨"---\n\n" ++ "**PLR License**: ",
     ". " ++ "You may edit, rebrand, and resell this content.\n\n"
       ++ "*Generated by Nosyt Automation System*\n",
     by rfl, trivial⟩
  have H := inOrder_append [d.title] _ _ _ h1
    (inOrder_append _ _ _ _ h2
      (inOrder_append _ _ _ _ h3
        (inOrder_append _ _ _ _ h4 h5)))
  have el : ebook_fragments d
      = [d.title] ++ ((if d.subtitle == "" then [] else [d.subtitle])
        ++ (d.chapters.map Chapter.title
          ++ (chapterFragments 0 d.chapters
            ++ ["This ebook comes with Private Label Rights (PLR)"]))) := by
    simp [ebook_fragments]
  have es : generate_ebook_markdown d
      = ("# " ++ d.title ++ "\n\n")
        ++ ((if d.subtitle == "" then "" else "*" ++ d.subtitle ++ "*\n\n")
          ++ (("## Table of Contents\n\n" ++ md_toc 0 d.chapters)
            ++ (("\n---\n\n" ++ md_body 0 d.chapters)
              ++ ("---\n\n"
                ++ "**PLR License**: This ebook comes with Private Label Rights (PLR). "
                ++ "You may edit, rebrand, and resell this content.\n\n"
                ++ "*Generated by Nosyt Automation System*\n")))) := by
    simp [generate_ebook_markdown, String.append_assoc]
  rw [el, es]
  exact H

/-- The HTML rendering contains all contract fragments in order. -/
theorem generate_ebook_html_contains (d : ProductDoc) :
    InOrder (ebook_fragments d) (generate_ebook_html d) := by
  have h1 : InOrder [d.title] (html_head d.title) :=
    ⟨"\n<!DOCTYPE html>\n<html lang=\"en\">\n<head>\n    <meta charset=\"UTF-8\">\n    <meta name=\"viewport\" content=\"width=device-width, initial-scale=1.0\">\n    <title>",
     "</title>\n    <style>\n        body \x7b font-family: Georgia, serif; line-height: 1.6; max-width: 800px; margin: 0 auto; padding: 20px; \x7d\n        h1 \x7b color: #333; border-bottom: 3px solid #007acc; padding-bottom: 10px; \x7d\n        h2 \x7b color: #555; margin-top: 30px; \x7d\n        .subtitle \x7b font-style: italic; color: #666; margin-bottom: 30px; \x7d\n        .chapter \x7b margin-bottom: 40px; page-break-after: always; \x7d\n        .toc \x7b background: #f9f9f9; padding: 20px; margin-bottom: 30px; \x7d\n        .toc ul \x7b list-style-type: none; \x7d\n        .toc li \x7b margin: 10px 0; \x7d\n        .footer \x7b text-align: center; margin-top: 50px; font-size: 0.9em; color: #666; \x7d\n    </style>\n</head>\n<body>\n    <h1>"
       ++ d.title ++ "</h1>\n    ",
     by simp [html_head, String.append_assoc], trivial⟩
  have h2 : InOrder (if d.subtitle == "" then [] else [d.subtitle])
      (if d.subtitle == "" then ""
       else "<p class=\"subtitle\">" ++ d.subtitle ++ "</p>") := by
    cases hsub : d.subtitle == "" with
    | false =>
      simp only [hsub, Bool.false_eq_true, if_false]
      exact ⟨"<p class=\"subtitle\">", "</p>", by simp [String.append_assoc],
        trivial⟩
    | true =>
      simp only [hsub, if_true]
      trivial
  have h3 : InOrder (d.chapters.map Chapter.title)
      ("\n    \n    <div class=\"toc\">\n        <h2>Table of Contents</h2>\n        <ul>\n        "
        ++ html_toc 0 d.chapters) :=
    inOrder_prepend _ _ _ (html_toc_titles d.chapters 0)
  have h4 : InOrder (chapterFragments 0 d.chapters)
      ("\n        </ul>\n    </div>\n    \n    " ++ html_body 0 d.chapters) :=
    inOrder_prepend _ _ _ (html_body_fragments d.chapters 0)
  have h5 : InOrder ["This ebook comes with Private Label Rights (PLR)"]
      ("\n    \n    <div class=\"footer\">\n        <p>This ebook comes with Private Label Rights (PLR). You may edit, rebrand, and resell this content.</p>\n        <p>Generated by Nosyt Automation System</p>\n    </div>\n</body>\n</html>\n        ") :=
    ⟨"\n    \n    <div class=\"footer\">\n        <p>",
     ". You may edit, rebrand, and resell this content.</p>\n        <p>Generated by Nosyt Automation System</p>\n    </div>\n</body>\n</html>\n        ",
     by rfl, trivial⟩
  have H := inOrder_append [d.title] _ _ _ h1
    (inOrder_append _ _ _ _ h2
      (inOrder_append _ _ _ _ h3
        (inOrder_append _ _ _ _ h4 h5)))
  have el : ebook_fragments d
      = [d.title] ++ ((if d.subtitle == "" then [] else [d.subtitle])
        ++ (d.chapters.map Chapter.title
          ++ (chapterFragments 0 d.chapters
            ++ ["This ebook comes with Private Label Rights (PLR)"]))) := by
    simp [ebook_fragments]
  have es : generate_ebook_html d
      = html_head d.title
        ++ ((if d.subtitle == "" then ""
             else "<p class=\"subtitle\">" ++ d.subtitle ++ "</p>")
          ++ (("\n    \n    <div class=\"toc\">\n        <h2>Table of Contents</h2>\n        <ul>\n        "
                ++ html_toc 0 d.chapters)
            ++ (("\n        </ul>\n    </div>\n    \n    " ++ html_body 0 d.chapters)
              ++ "\n    \n    <div class=\"footer\">\n        <p>This ebook comes with Private Label Rights (PLR). You may edit, rebrand, and resell this content.</p>\n        <p>Generated by Nosyt Automation System</p>\n    </div>\n</body>\n</html>\n        "))) := by
    simp [generate_ebook_html, String.append_assoc]
  rw [el, es]
  exact H

/-- Claim C7: for every ebook document with N chapters, each of the three
rendered outputs (HTML, plain text, Markdown) contains, as pairwise-disjoint
substrings in this order: the title; the subtitle when present (Python
truthiness: a nonempty string); the N chapter titles of the generated table
of contents in original order; then, per chapter and in original order, its
`Chapter {i+1}: {title}` heading followed by its content verbatim; and a
trailing license notice.  The in-order disjoint decomposition is the
structural-completeness reading of "exactly N headings, every chapter present
exactly once" fixed by the spec (byte format is not contractually fixed). -/
theorem ebook_rendering_structural (d : ProductDoc) :
    InOrder (ebook_fragments d) (generate_ebook_html d) ∧
    InOrder (ebook_fragments d) (generate_ebook_text d) ∧
    InOrder (ebook_fragments d) (generate_ebook_markdown d) :=
  ⟨generate_ebook_html_contains d, generate_ebook_text_contains d,
   generate_ebook_markdown_contains d⟩

/-! ## Product store round trip (generator write, uploader read)

The Content Generator assembles the ebook package dict and writes it with
`json.dump` (ai_product_generator.py, lines 62-84); the Batch Uploader reads
it back with `json.load` (whop_integration.py, lines 360-361) and hands the
dict to `create_product`.  JSON values are modelled by `Json`; the Python
standard-library codec is an external collaborator of this repository, and on
the value forms the generator writes (strings, integers, booleans, arrays,
string-keyed objects) serialize-then-parse returns an equal value, so the
dump/load pair is modelled as the identity on `Json`. -/

/-- A JSON value as written to and read from the product store. -/
inductive Json where
  | str (s : String)
  | num (n : Nat)
  | b (v : Bool)
  | arr (items : List Json)
  | obj (fields : List (String × Json))

/-- One chapter as serialized inside the package
(ai_product_generator.py, lines 56-59). -/
def chapter_to_json (c : Chapter) : Json :=
  .obj [("title", .str c.title), ("content", .str c.content)]

/-- The `base_prices` dict of `_calculate_price`
(ai_product_generator.py, lines 325-332). -/
def base_prices : List (String × Nat) :=
  [("ebook", 15),
   ("notion_template", 25),
   ("planner", 20),
   ("email_templates", 3),
   ("course", 100),
   ("bundle", 50)]

/-- `_calculate_price` (ai_product_generator.py, lines 321-343);
`int(base_price * 1.5)` is `base_price * 3 / 2` (the factor 1.5 is exact). -/
def calculate_price (product_type : String) (quantity : Nat) : Nat :=
  let base_price := (base_prices.lookup product_type).getD 20
  if product_type == "email_templates" then base_price * quantity
  else if quantity > 5 then base_price * 3 / 2
  else base_price

/-- Python `str.split()` with no argument: split on whitespace runs,
dropping empty pieces. -/
def py_split_whitespace (s : String) : List String :=
  (s.split fun c => c == ' ' || c == '\n' || c == '\t' || c == '\r').filter
    (fun w => w != "")

/-- `sum(len(section['content'].split()) for section in content_sections)`
(ai_product_generator.py, line 70). -/
def ebook_word_count (cs : List Chapter) : Nat :=
  (cs.map fun c => (py_split_whitespace c.content).length).sum

/-- The `ebook_package` dict assembled by `generate_ebook`
(ai_product_generator.py, lines 62-77), in source key order. -/
def generate_ebook_package (title subtitle topic target_audience : String)
    (content_sections : List Chapter) (bonus_sections : List Json)
    (created_at : String) (tags : List String) (description : String) : Json :=
  .obj [("type", .str "ebook"),
        ("title", .str title),
        ("subtitle", .str subtitle),
        ("topic", .str topic),
        ("target_audience", .str target_audience),
        ("chapters", .arr (content_sections.map chapter_to_json)),
        ("bonus_sections", .arr bonus_sections),
        ("word_count", .num (ebook_word_count content_sections)),
        ("created_at", .str created_at),
        ("plr_rights", .b true),
        ("mrr_rights", .b true),
        ("suggested_price", .num (calculate_price "ebook" content_sections.length)),
        ("tags", .arr (tags.map Json.str)),
        ("description", .str description)]

/-- `json.dump` by the generator followed by `json.load` by the uploader:
the standard-library codec round-trips these value forms, modelled as the
identity on `Json`. -/
def store_write_read (j : Json) : Json := j

/-- A dict read as the uploader and `_format_for_whop_api` read it:
`product_data.get(key)`. -/
def jget (j : Json) (key : String) : Option Json :=
  match j with
  | .obj fields => fields.lookup key
  | _ => none

/-- How the renderers read one chapter back
(`chapter['title']`, `chapter['content']`). -/
def chapter_of_json (j : Json) : Option Chapter :=
  match jget j "title", jget j "content" with
  | some (.str t), some (.str c) => some ⟨t, c⟩
  | _, _ => none

/-- Claim C9: writing a generated ebook package to the Product Store and
reading it back preserves the structural fields exactly: the `type` tag is
still `ebook`, `title` and `suggested_price` are unchanged, and the
`chapters` array decodes to the identical chapter list — same order, same
titles, same contents. -/
theorem product_store_round_trip
    (title subtitle topic target_audience created_at description : String)
    (content_sections : List Chapter) (bonus_sections : List Json)
    (tags : List String) :
    jget (store_write_read (generate_ebook_package title subtitle topic
        target_audience content_sections bonus_sections created_at tags
        description)) "type" = some (.str "ebook") ∧
    jget (store_write_read (generate_ebook_package title subtitle topic
        target_audience content_sections bonus_sections created_at tags
        description)) "title" = some (.str title) ∧
    jget (store_write_read (generate_ebook_package title subtitle topic
        target_audience content_sections bonus_sections created_at tags
        description)) "suggested_price"
      = some (.num (calculate_price "ebook" content_sections.length)) ∧
    jget (store_write_read (generate_ebook_package title subtitle topic
        target_audience content_sections bonus_sections created_at tags
        description)) "chapters"
      = some (.arr (content_sections.map chapter_to_json)) ∧
    (content_sections.map chapter_to_json).map chapter_of_json
      = content_sections.map some := by
  refine ⟨rfl, ?_, ?_, ?_, ?_⟩
  · simp [store_write_read, generate_ebook_package, jget, List.lookup]
  · simp [store_write_read, generate_ebook_package, jget, List.lookup]
  · simp [store_write_read, generate_ebook_package, jget, List.lookup]
  · have hc : ∀ c : Chapter, chapter_of_json (chapter_to_json c) = some c :=
      fun c => rfl
    simp [List.map_map, Function.comp, hc]
